import Mathlib

/-!
Verification of the news_scraper_api service (src/main.py) against its
specification.

The embedding models:
* the snapshot cache (`get_db`): process state is the cached file's contents
  (as the list of article rows the SQLite file holds) together with the
  module-global `last_fetch_time`; the outside world supplies the current
  clock and the outcome of the HTTPS download (`some db` when
  `requests.get` + `raise_for_status` succeed, `none` when any
  `RequestException` — network error, non-success status, timeout — occurs);
* the query layer: the `news` table is a list of rows, SQL
  `WHERE`/`ORDER BY`/`LIMIT` become `filter`/`mergeSort`/`take`, and
  `LIKE '%t%'` is modelled with SQLite's default LIKE semantics:
  ASCII-case-insensitive comparison, with unescaped `%` and `_` in the
  term acting as wildcards;
* each FastAPI handler: a function of the HTTP method, the (already
  URL-decoded) parameters, the world and the cache state, returning the
  response, the new cache state, and a ledger of the effects performed
  (downloads attempted, snapshot-file writes, SQL statements executed,
  connections opened/closed).  FastAPI's `Query(ge=, le=)` validation runs
  before the handler body, for GET and HEAD alike, and rejects with a
  client-error (422) response.
-/

/-- One row of the external `news` table. -/
structure Article where
  id : Int
  source : String
  title : String
  url : String
  summary : String
  image_url : String
  scraped_at : String
deriving DecidableEq, Repr

/-- Contents of the SQLite database file, as its list of `news` rows. -/
abbrev DB := List Article

/-- `CACHE_DURATION = 3600` seconds (src/main.py line 28). -/
def CACHE_DURATION : Int := 3600

/-- Process-wide mutable state of the snapshot cache: the cached file at
`DB_CACHE_FILE` (`none` when `os.path.exists` is false) and the module
global `last_fetch_time` (initialized to `0`, line 29). -/
structure CacheState where
  file : Option DB
  last_fetch_time : Int
deriving DecidableEq, Repr

/-- The initial process state: no information about the file, timestamp 0.
(We keep `file` a parameter since the file may persist across restarts.) -/
def initialFetchTime : Int := 0

/-- The environment of one `get_db` call: the wall clock `time.time()` and
the result of the HTTPS download attempt (`some db` iff `requests.get`
returns and `raise_for_status` passes). -/
structure World where
  now : Int
  remote : Option DB
deriving DecidableEq, Repr

/-- Ledger of side effects performed while serving one request. -/
structure Effects where
  downloads : Nat
  writes : Nat
  statements : Nat
  handlesOpened : Nat
  handlesClosed : Nat
deriving DecidableEq, Repr

/-- No side effects at all. -/
def noEffects : Effects := ⟨0, 0, 0, 0, 0⟩

/-- A FastAPI `HTTPException` (or a framework validation error): a status
code and a detail message. -/
structure HTTPError where
  status : Nat
  detail : String
deriving DecidableEq, Repr

/-- HTTP method of the incoming request (the routes accept GET and HEAD). -/
inductive Method where
  | GET
  | HEAD
deriving DecidableEq, Repr

/-- Outcome of one request: a 200 response with a JSON body, a bodyless
200 response (the `Response()` returned on HEAD), or an error response. -/
inductive EndpointResult (β : Type) where
  | ok (b : β)
  | head
  | err (e : HTTPError)
deriving DecidableEq, Repr

/-- The HTTP status code of an `EndpointResult`. -/
def EndpointResult.status : EndpointResult β → Nat
  | .ok _ => 200
  | .head => 200
  | .err e => e.status

/-- Whether the response carries a body. -/
def EndpointResult.hasBody : EndpointResult β → Bool
  | .ok _ => true
  | .head => false
  | .err _ => true

/-- `get_db` (src/main.py lines 31–57).  Returns the rows visible through
the `sqlite3.connect` handle (or the raised `HTTPException`), the new
cache state, and the effects performed.  The detail string of the raised
exception is `f"Failed to fetch database: {str(e)}"`; the runtime
exception text is not modelled beyond the constant prefix. -/
def get_db (w : World) (s : CacheState) :
    Except HTTPError DB × CacheState × Effects :=
  if s.file.isSome ∧ w.now - s.last_fetch_time < CACHE_DURATION then
    (.ok (s.file.getD []), s, ⟨0, 0, 0, 1, 0⟩)
  else
    match w.remote with
    | some db =>
        (.ok db, { file := some db, last_fetch_time := w.now }, ⟨1, 1, 0, 1, 0⟩)
    | none =>
        match s.file with
        | some db => (.ok db, s, ⟨1, 0, 0, 1, 0⟩)
        | none =>
            (.error ⟨500, "Failed to fetch database: "⟩, s, ⟨1, 0, 0, 0, 0⟩)

/-- `leadMatch n h` : the char list `n` is an initial segment of `h`. -/
def leadMatch : List Char → List Char → Bool
  | [], _ => true
  | _ :: _, [] => false
  | n :: ns, h :: hs => n == h && leadMatch ns hs

/-- `occursIn n h` : the char list `n` occurs contiguously inside `h`. -/
def occursIn (n : List Char) : List Char → Bool
  | [] => leadMatch n []
  | h :: hs => leadMatch n (h :: hs) || occursIn n hs

/-- `strContains hay needle` : `needle` occurs literally (case-sensitively)
as a substring of `hay`.  Used to state the spec's "contains ... as a
substring" and "message names the source" properties; note this is NOT
the semantics of SQLite `LIKE`, which is modelled by `sqlLike` below. -/
def strContains (hay needle : String) : Bool :=
  occursIn needle.data hay.data

/-- ASCII lower-casing, the folding SQLite's default `LIKE` applies to
both operands (case-insensitive for ASCII only). -/
def asciiLower (c : Char) : Char :=
  if 'A' ≤ c ∧ c ≤ 'Z' then Char.ofNat (c.toNat + 32) else c

/-- Character comparison of SQLite `LIKE`: equal up to ASCII case. -/
def charLikeEq (p c : Char) : Bool :=
  asciiLower p == asciiLower c

/-- `tryTails f s` : `f` holds of some suffix of `s` (including `s` itself
and `[]`); how a `%` wildcard consumes an arbitrary prefix. -/
def tryTails (f : List Char → Bool) : List Char → Bool
  | [] => f []
  | c :: cs => f (c :: cs) || tryTails f cs

/-- SQLite `LIKE` pattern matching over char lists: `%` matches any run of
characters, `_` matches exactly one, anything else matches up to ASCII
case. -/
def likeMatch : List Char → List Char → Bool
  | [], s => s.isEmpty
  | p :: ps, s =>
      if p = '%' then tryTails (likeMatch ps) s
      else
        match s with
        | [] => false
        | c :: cs => (if p = '_' then true else charLikeEq p c) && likeMatch ps cs

/-- `s LIKE pattern` with SQLite's default semantics. -/
def sqlLike (s pattern : String) : Bool :=
  likeMatch pattern.data s.data

/-- The pattern the code builds with `f"%{search}%"` (lines 104–105). -/
def likePattern (t : String) : String :=
  "%" ++ t ++ "%"

/-- Whether a search term contains an (unescaped) `LIKE` wildcard. -/
def hasWildcard (t : String) : Bool :=
  t.data.any fun c => c == '%' || c == '_'

/-- `needle` occurs in `hay` as a substring up to ASCII case. -/
def strContainsCI (hay needle : String) : Bool :=
  occursIn (needle.data.map asciiLower) (hay.data.map asciiLower)

/-- The optional `source` filter of `/articles` (lines 99–101): Python's
`if source:` treats both `None` and `""` as "no filter". -/
def matchesSource (source : Option String) (a : Article) : Bool :=
  match source with
  | none => true
  | some s => if s = "" then true else a.source == s

/-- The optional `search` filter of `/articles` (lines 103–105):
`title LIKE ? OR summary LIKE ?` with the `%`-wrapped term bound to both
placeholders; `None` and `""` mean "no filter" (Python `if search:`). -/
def matchesSearch (search : Option String) (a : Article) : Bool :=
  match search with
  | none => true
  | some t =>
      if t = "" then true
      else sqlLike a.title (likePattern t) || sqlLike a.summary (likePattern t)

/-- The comparison used by `ORDER BY scraped_at DESC`. -/
def scrapedDescLE (a b : Article) : Bool :=
  decide (b.scraped_at ≤ a.scraped_at)

/-- `ORDER BY scraped_at DESC` over a row list. -/
def sortByScrapedDesc (l : DB) : DB :=
  l.mergeSort scrapedDescLE

/-- The rows `/articles` returns (lines 96–112): `WHERE 1=1 [AND source=?]
[AND (title LIKE ? OR summary LIKE ?)] ORDER BY scraped_at DESC LIMIT ?`. -/
def articlesQuery (db : DB) (source search : Option String) (limit : Nat) : DB :=
  (sortByScrapedDesc
    (db.filter fun a => matchesSource source a && matchesSearch search a)).take limit

/-- The rows `/articles/latest` returns (lines 130–133). -/
def latestQuery (db : DB) (limit : Nat) : DB :=
  (sortByScrapedDesc db).take limit

/-- The rows `/articles/by-source/{source_name}` returns (lines 192–195):
`WHERE source = ? ORDER BY scraped_at DESC LIMIT ?`. -/
def bySourceQuery (db : DB) (name : String) (limit : Nat) : DB :=
  (sortByScrapedDesc (db.filter fun a => a.source == name)).take limit

/-- `SELECT DISTINCT source FROM news ORDER BY source` (line 149). -/
def sourcesQuery (db : DB) : List String :=
  ((db.map (·.source)).dedup).mergeSort (fun a b => decide (a ≤ b))

/-- `SELECT source, COUNT(*) FROM news GROUP BY source ORDER BY count DESC`
(line 166). -/
def bySourceCounts (db : DB) : List (String × Nat) :=
  ((db.map (·.source)).dedup.map
      (fun s => (s, (db.filter (·.source == s)).length))).mergeSort
    (fun a b => decide (b.2 ≤ a.2))

/-- `SELECT MAX(scraped_at) FROM news` (line 169); NULL on an empty table. -/
def maxScraped (db : DB) : Option String :=
  (db.map (·.scraped_at)).max?

/-- `SELECT MIN(scraped_at) FROM news` (line 172). -/
def minScraped (db : DB) : Option String :=
  (db.map (·.scraped_at)).min?

/-- FastAPI `Query(default, ge=lo, le=hi)` bound check, applied before the
handler body runs. -/
def validLimit (lo hi limit : Int) : Bool :=
  lo ≤ limit && limit ≤ hi

/-- The 422 response FastAPI produces when a query parameter fails its
`ge`/`le` validation. -/
def validationError : HTTPError :=
  ⟨422, "Input validation failed for parameter limit"⟩

/-- Effects added by a handler body that runs `n` SQL statements on the
connection obtained from `get_db` and then closes it. -/
def addQuery (e : Effects) (n : Nat) : Effects :=
  { e with statements := e.statements + n, handlesClosed := e.handlesClosed + 1 }

/-- Response body of `/articles` (lines 116–120). -/
structure ArticlesBody where
  total : Nat
  limit : Int
  source : Option String
  search : Option String
  articles : DB
deriving DecidableEq, Repr

/-- Response body of `/articles/latest` (line 139). -/
structure LatestBody where
  total : Nat
  articles : DB
deriving DecidableEq, Repr

/-- Response body of `/articles/sources` (line 153). -/
structure SourcesBody where
  total_sources : Nat
  sources : List String
deriving DecidableEq, Repr

/-- Response body of `/articles/stats` (lines 177–182). -/
structure StatsBody where
  total_articles : Nat
  articles_by_source : List (String × Nat)
  last_updated : Option String
  first_article : Option String
deriving DecidableEq, Repr

/-- Response body of `/articles/by-source/{source_name}` (line 204). -/
structure BySourceBody where
  source : String
  total : Nat
  articles : DB
deriving DecidableEq, Repr

/-- Handler of `GET|HEAD /articles` (lines 83–120). -/
def get_articles (method : Method) (limit : Int) (source search : Option String)
    (w : World) (s : CacheState) :
    EndpointResult ArticlesBody × CacheState × Effects :=
  if validLimit 1 1000 limit then
    match method with
    | .HEAD => (.head, s, noEffects)
    | .GET =>
        let r := get_db w s
        match r.1 with
        | .ok db =>
            let results := articlesQuery db source search limit.toNat
            (.ok ⟨results.length, limit, source, search, results⟩,
              r.2.1, addQuery r.2.2 1)
        | .error e => (.err e, r.2.1, r.2.2)
  else (.err validationError, s, noEffects)

/-- Handler of `GET|HEAD /articles/latest` (lines 122–139). -/
def get_latest_articles (method : Method) (limit : Int)
    (w : World) (s : CacheState) :
    EndpointResult LatestBody × CacheState × Effects :=
  if validLimit 1 100 limit then
    match method with
    | .HEAD => (.head, s, noEffects)
    | .GET =>
        let r := get_db w s
        match r.1 with
        | .ok db =>
            let results := latestQuery db limit.toNat
            (.ok ⟨results.length, results⟩, r.2.1, addQuery r.2.2 1)
        | .error e => (.err e, r.2.1, r.2.2)
  else (.err validationError, s, noEffects)

/-- Handler of `GET|HEAD /articles/sources` (lines 141–153). -/
def get_sources (method : Method) (w : World) (s : CacheState) :
    EndpointResult SourcesBody × CacheState × Effects :=
  match method with
  | .HEAD => (.head, s, noEffects)
  | .GET =>
      let r := get_db w s
      match r.1 with
      | .ok db =>
          let srcs := sourcesQuery db
          (.ok ⟨srcs.length, srcs⟩, r.2.1, addQuery r.2.2 1)
      | .error e => (.err e, r.2.1, r.2.2)

/-- Handler of `GET|HEAD /articles/stats` (lines 155–182): note the body
runs four `cursor.execute` statements (lines 163, 166, 169, 172). -/
def get_stats (method : Method) (w : World) (s : CacheState) :
    EndpointResult StatsBody × CacheState × Effects :=
  match method with
  | .HEAD => (.head, s, noEffects)
  | .GET =>
      let r := get_db w s
      match r.1 with
      | .ok db =>
          (.ok ⟨db.length, bySourceCounts db, maxScraped db, minScraped db⟩,
            r.2.1, addQuery r.2.2 4)
      | .error e => (.err e, r.2.1, r.2.2)

/-- Handler of `GET|HEAD /articles/by-source/{source_name}`
(lines 184–204).  `conn.close()` precedes the empty-result check, so the
handle is closed and one statement counted even on the 404 path. -/
def get_articles_by_source (method : Method) (source_name : String)
    (limit : Int) (w : World) (s : CacheState) :
    EndpointResult BySourceBody × CacheState × Effects :=
  if validLimit 1 500 limit then
    match method with
    | .HEAD => (.head, s, noEffects)
    | .GET =>
        let r := get_db w s
        match r.1 with
        | .ok db =>
            let results := bySourceQuery db source_name limit.toNat
            if results.isEmpty then
              (.err ⟨404, "No articles found for source: " ++ source_name⟩,
                r.2.1, addQuery r.2.2 1)
            else
              (.ok ⟨source_name, results.length, results⟩,
                r.2.1, addQuery r.2.2 1)
        | .error e => (.err e, r.2.1, r.2.2)
  else (.err validationError, s, noEffects)

/-- Handler of `GET|HEAD /health` (lines 77–81): static body, no
dependency access. -/
def health_check (method : Method) (s : CacheState) :
    EndpointResult String × CacheState × Effects :=
  match method with
  | .HEAD => (.head, s, noEffects)
  | .GET => (.ok "healthy", s, noEffects)

/-- Handler of `GET|HEAD /` (lines 59–75): static banner body. -/
def root (method : Method) (s : CacheState) :
    EndpointResult String × CacheState × Effects :=
  match method with
  | .HEAD => (.head, s, noEffects)
  | .GET => (.ok "News Scraper API - Live news from multiple sources", s, noEffects)

/-! ### Helper lemmas -/

theorem leadMatch_refl (l : List Char) : leadMatch l l = true := by
  induction l with
  | nil => rfl
  | cons c cs ih => simp [leadMatch, ih]

theorem occursIn_self (l : List Char) : occursIn l l = true := by
  cases l with
  | nil => rfl
  | cons c cs => simp [occursIn, leadMatch_refl]

theorem occursIn_append_left (n xs ys : List Char)
    (h : occursIn n ys = true) : occursIn n (xs ++ ys) = true := by
  induction xs with
  | nil => simpa using h
  | cons x xt ih => simp [occursIn, ih]

/-- A string is a substring of anything it is appended to on the right. -/
theorem strContains_append_right (p n : String) :
    strContains (p ++ n) n = true := by
  unfold strContains
  rw [String.data_append]
  exact occursIn_append_left _ _ _ (occursIn_self _)

/-- The rows are pairwise ordered by `scraped_at` descending. -/
def sortedByScrapedDesc (l : DB) : Prop :=
  List.Pairwise (fun a b => b.scraped_at ≤ a.scraped_at) l

theorem sortByScrapedDesc_sorted (l : DB) :
    sortedByScrapedDesc (sortByScrapedDesc l) := by
  have h := @List.sorted_mergeSort Article scrapedDescLE
    (fun a b c hab hbc => by
      simp only [scrapedDescLE, decide_eq_true_eq] at *
      exact le_trans hbc hab)
    (fun a b => by
      simp only [scrapedDescLE, Bool.or_eq_true, decide_eq_true_eq]
      exact le_total _ _)
    l
  exact h.imp (by simp [scrapedDescLE])

theorem sortedByScrapedDesc_take (l : DB) (n : Nat)
    (h : sortedByScrapedDesc l) : sortedByScrapedDesc (l.take n) :=
  List.Pairwise.sublist (List.take_sublist n l) h

theorem length_sortByScrapedDesc (l : DB) :
    (sortByScrapedDesc l).length = l.length := by
  simp [sortByScrapedDesc]

theorem mem_sortByScrapedDesc {a : Article} {l : DB} :
    a ∈ sortByScrapedDesc l ↔ a ∈ l := by
  simp [sortByScrapedDesc]

/-! ### Claims about the snapshot cache (`get_db`) -/

/-- Claim C1: when the local snapshot file exists and the elapsed time since
`last_fetch_time` is strictly below `CACHE_DURATION`, `get_db` returns a
connection to the existing local file, performs no download and no write,
and leaves the cache state (file and `last_fetch_time`) unchanged. -/
theorem get_db_fresh_cache_hit (w : World) (s : CacheState) (db : DB)
    (hfile : s.file = some db)
    (hfresh : w.now - s.last_fetch_time < CACHE_DURATION) :
    get_db w s = (.ok db, s, ⟨0, 0, 0, 1, 0⟩) := by
  simp [get_db, hfile, hfresh]

theorem get_db_fresh_cache_hit_witness :
    get_db ⟨100, none⟩ ⟨some [], 0⟩ = (.ok [], ⟨some [], 0⟩, ⟨0, 0, 0, 1, 0⟩) :=
  get_db_fresh_cache_hit ⟨100, none⟩ ⟨some [], 0⟩ [] rfl (by decide)

/-- Claim C2: when the cache is absent or stale and the download succeeds,
`get_db` writes the downloaded content to the local path (overwriting any
previous content), sets `last_fetch_time` to the current time, and returns
a connection to the newly written file. -/
theorem get_db_refresh_success (w : World) (s : CacheState) (db : DB)
    (hstale : s.file = none ∨ ¬ w.now - s.last_fetch_time < CACHE_DURATION)
    (hremote : w.remote = some db) :
    get_db w s =
      (.ok db, { file := some db, last_fetch_time := w.now }, ⟨1, 1, 0, 1, 0⟩) := by
  have hcond : ¬ (s.file.isSome ∧ w.now - s.last_fetch_time < CACHE_DURATION) := by
    rcases hstale with h | h
    · simp [h]
    · exact fun hc => h hc.2
  simp [get_db, hcond, hremote]

theorem get_db_refresh_success_witness :
    get_db ⟨10000, some []⟩ ⟨none, 0⟩ =
      (.ok [], ⟨some [], 10000⟩, ⟨1, 1, 0, 1, 0⟩) :=
  get_db_refresh_success ⟨10000, some []⟩ ⟨none, 0⟩ [] (Or.inl rfl) rfl

/-- Claim C3: when the cache is absent or stale and the download fails, if
the local file exists `get_db` returns a connection to the stale file
without touching `last_fetch_time`; if no local file exists it raises an
`HTTPException` with status 500 (a 5xx-class error) and returns no
connection. -/
theorem get_db_download_failure (w : World) (s : CacheState)
    (hstale : s.file = none ∨ ¬ w.now - s.last_fetch_time < CACHE_DURATION)
    (hremote : w.remote = none) :
    (∀ db, s.file = some db → get_db w s = (.ok db, s, ⟨1, 0, 0, 1, 0⟩)) ∧
    (s.file = none →
      get_db w s =
        (.error ⟨500, "Failed to fetch database: "⟩, s, ⟨1, 0, 0, 0, 0⟩)) := by
  have hcond : ¬ (s.file.isSome ∧ w.now - s.last_fetch_time < CACHE_DURATION) := by
    rcases hstale with h | h
    · simp [h]
    · exact fun hc => h hc.2
  constructor
  · intro db hdb
    have hnlt : ¬ w.now - s.last_fetch_time < CACHE_DURATION := by
      rcases hstale with h | h
      · rw [hdb] at h; cases h
      · exact h
    simp [get_db, hdb, hnlt, hremote]
  · intro hnone
    simp [get_db, hcond, hremote, hnone]

theorem get_db_download_failure_witness :
    get_db ⟨10000, none⟩ ⟨some [], 0⟩ = (.ok [], ⟨some [], 0⟩, ⟨1, 0, 0, 1, 0⟩) :=
  (get_db_download_failure ⟨10000, none⟩ ⟨some [], 0⟩
    (Or.inr (by decide)) rfl).1 [] rfl

/-! ### Claims about the query layer -/

/-- `total` field of an `/articles` response (0 when there is no body). -/
def articlesTotalField : EndpointResult ArticlesBody → Nat
  | .ok b => b.total
  | _ => 0

/-- Number of article rows in an `/articles` response body. -/
def articlesRowCount : EndpointResult ArticlesBody → Nat
  | .ok b => b.articles.length
  | _ => 0

/-- `total` field of an `/articles/latest` response. -/
def latestTotalField : EndpointResult LatestBody → Nat
  | .ok b => b.total
  | _ => 0

/-- Number of article rows in an `/articles/latest` response body. -/
def latestRowCount : EndpointResult LatestBody → Nat
  | .ok b => b.articles.length
  | _ => 0

/-- `total` field of an `/articles/by-source/...` response. -/
def bySourceTotalField : EndpointResult BySourceBody → Nat
  | .ok b => b.total
  | _ => 0

/-- Number of article rows in an `/articles/by-source/...` response body. -/
def bySourceRowCount : EndpointResult BySourceBody → Nat
  | .ok b => b.articles.length
  | _ => 0

theorem get_articles_total_eq (method : Method) (limit : Int)
    (source search : Option String) (w : World) (s : CacheState) :
    articlesTotalField (get_articles method limit source search w s).1 =
      articlesRowCount (get_articles method limit source search w s).1 := by
  unfold get_articles
  split
  · cases method with
    | HEAD => rfl
    | GET =>
        cases h : (get_db w s).1 with
        | ok db => simp [h, articlesTotalField, articlesRowCount]
        | error e => simp [h, articlesTotalField, articlesRowCount]
  · rfl

theorem get_latest_total_eq (method : Method) (limit : Int)
    (w : World) (s : CacheState) :
    latestTotalField (get_latest_articles method limit w s).1 =
      latestRowCount (get_latest_articles method limit w s).1 := by
  unfold get_latest_articles
  split
  · cases method with
    | HEAD => rfl
    | GET =>
        cases h : (get_db w s).1 with
        | ok db => simp [h, latestTotalField, latestRowCount]
        | error e => simp [h, latestTotalField, latestRowCount]
  · rfl

theorem get_by_source_total_eq (method : Method) (name : String) (limit : Int)
    (w : World) (s : CacheState) :
    bySourceTotalField (get_articles_by_source method name limit w s).1 =
      bySourceRowCount (get_articles_by_source method name limit w s).1 := by
  unfold get_articles_by_source
  split
  · cases method with
    | HEAD => rfl
    | GET =>
        cases h : (get_db w s).1 with
        | ok db =>
            simp only [h]
            split <;> simp [bySourceTotalField, bySourceRowCount]
        | error e => simp [h, bySourceTotalField, bySourceRowCount]
  · rfl

/-- Claim C4: every listing operation (list, latest, by-source) returns
rows ordered by `scraped_at` descending, at most `limit` rows (exactly
`min limit matching`), and each response's `total` field equals the number
of rows actually returned, not the pre-limit match count. -/
theorem listings_sorted_capped_total :
    (∀ db source search limit,
      sortedByScrapedDesc (articlesQuery db source search limit) ∧
      (articlesQuery db source search limit).length =
        min limit
          (db.filter fun a => matchesSource source a && matchesSearch search a).length) ∧
    (∀ db limit,
      sortedByScrapedDesc (latestQuery db limit) ∧
      (latestQuery db limit).length = min limit db.length) ∧
    (∀ db name limit,
      sortedByScrapedDesc (bySourceQuery db name limit) ∧
      (bySourceQuery db name limit).length =
        min limit (db.filter fun a => a.source == name).length) ∧
    (∀ method limit source search w s,
      articlesTotalField (get_articles method limit source search w s).1 =
        articlesRowCount (get_articles method limit source search w s).1) ∧
    (∀ method limit w s,
      latestTotalField (get_latest_articles method limit w s).1 =
        latestRowCount (get_latest_articles method limit w s).1) ∧
    (∀ method name limit w s,
      bySourceTotalField (get_articles_by_source method name limit w s).1 =
        bySourceRowCount (get_articles_by_source method name limit w s).1) := by
  refine ⟨fun db source search limit => ⟨?_, ?_⟩,
          fun db limit => ⟨?_, ?_⟩,
          fun db name limit => ⟨?_, ?_⟩,
          get_articles_total_eq, get_latest_total_eq, get_by_source_total_eq⟩
  · exact sortedByScrapedDesc_take _ _ (sortByScrapedDesc_sorted _)
  · simp [articlesQuery, length_sortByScrapedDesc]
  · exact sortedByScrapedDesc_take _ _ (sortByScrapedDesc_sorted _)
  · simp [latestQuery, length_sortByScrapedDesc]
  · exact sortedByScrapedDesc_take _ _ (sortByScrapedDesc_sorted _)
  · simp [bySourceQuery, length_sortByScrapedDesc]

theorem likeMatch_wild (ps s : List Char) :
    likeMatch ('%' :: ps) s = tryTails (likeMatch ps) s := by
  simp [likeMatch]

/-- A wildcard-free term followed by `%` matching a string forces the
case-folded term to be an initial segment of the case-folded string. -/
theorem likeMatch_tail_wild (t : List Char)
    (hw : ∀ c ∈ t, c ≠ '%' ∧ c ≠ '_') :
    ∀ s : List Char, likeMatch (t ++ ['%']) s = true →
      leadMatch (t.map asciiLower) (s.map asciiLower) = true := by
  induction t with
  | nil =>
      intro s _
      simp [leadMatch]
  | cons c t' ih =>
      intro s h
      obtain ⟨hc, hw'⟩ : (c ≠ '%' ∧ c ≠ '_') ∧ ∀ x ∈ t', x ≠ '%' ∧ x ≠ '_' :=
        ⟨hw c (by simp), fun x hx => hw x (by simp [hx])⟩
      cases s with
      | nil =>
          exfalso
          simp [likeMatch, hc.1] at h
      | cons d ds =>
          simp only [List.cons_append, likeMatch, if_neg hc.1, if_neg hc.2,
            Bool.and_eq_true] at h
          simp only [List.map_cons, leadMatch, Bool.and_eq_true]
          exact ⟨by simpa [charLikeEq] using h.1, ih hw' ds h.2⟩

/-- `LIKE '%term%'` with a wildcard-free term implies case-insensitive
substring containment. -/
theorem like_imp_occursIn (t : List Char)
    (hw : ∀ c ∈ t, c ≠ '%' ∧ c ≠ '_') :
    ∀ s : List Char, tryTails (likeMatch (t ++ ['%'])) s = true →
      occursIn (t.map asciiLower) (s.map asciiLower) = true := by
  intro s
  induction s with
  | nil =>
      intro h
      have hl := likeMatch_tail_wild t hw [] (by simpa [tryTails] using h)
      cases t with
      | nil => simp [occursIn, leadMatch]
      | cons c t' => simp [leadMatch] at hl
  | cons x xs ih =>
      intro h
      simp only [tryTails, Bool.or_eq_true] at h
      rcases h with h | h
      · have hl := likeMatch_tail_wild t hw (x :: xs) h
        simp only [List.map_cons, occursIn, Bool.or_eq_true]
        exact Or.inl (by simpa using hl)
      · simp only [List.map_cons, occursIn, Bool.or_eq_true]
        exact Or.inr (ih h)

theorem like_imp_containsCI (s t : String)
    (hw : hasWildcard t = false)
    (h : sqlLike s (likePattern t) = true) :
    strContainsCI s t = true := by
  have hw' : ∀ c ∈ t.data, c ≠ '%' ∧ c ≠ '_' := by
    intro c hc
    have hany := hw
    unfold hasWildcard at hany
    rw [List.any_eq_false] at hany
    have := hany c hc
    simpa using this
  have hpat : (likePattern t).data = '%' :: (t.data ++ ['%']) := by
    simp [likePattern]
  unfold sqlLike at h
  rw [hpat, likeMatch_wild] at h
  exact like_imp_occursIn t.data hw' s.data h

/-- A row returned by a search that matches only up to ASCII case. -/
def upperRow : Article :=
  ⟨1, "bbc", "NEWS", "u1", "", "", "2024-01-01"⟩

/-- Claim C5 counterexample: searching for "news" returns `upperRow`
(SQLite `LIKE` is ASCII-case-insensitive, so its title "NEWS" matches
`%news%`), yet "news" is not a substring of its title nor of its
summary. -/
theorem articles_search_case_mismatch :
    articlesQuery [upperRow] none (some "news") 50 = [upperRow] ∧
    strContains upperRow.title "news" = false ∧
    strContains upperRow.summary "news" = false := by
  refine ⟨?_, by decide, by decide⟩
  have hpred : (matchesSource none upperRow &&
      matchesSearch (some "news") upperRow) = true := by decide
  simp [articlesQuery, sortByScrapedDesc, List.filter, hpred]

/-- Claim C5 (amended): every row returned by the list-articles query has
its `source` exactly equal to a non-empty requested `source`; for a
non-empty `search` term, its title or its summary matches the SQL pattern
`%term%` under SQLite `LIKE` semantics (ASCII-case-insensitive, unescaped
`%`/`_` in the term acting as wildcards) — in particular, when the term
contains no wildcard character, the case-folded term is a substring of
the case-folded title or summary; both filters combine with AND when both
are given. -/
theorem articles_filters_like_sound (db : DB) (source search : Option String)
    (limit : Nat) :
    ((articlesQuery db source search limit).all fun a =>
      (match source with
       | none => true
       | some s => s == "" || a.source == s) &&
      (match search with
       | none => true
       | some t =>
          t == "" ||
            ((sqlLike a.title (likePattern t) ||
                sqlLike a.summary (likePattern t)) &&
             (hasWildcard t ||
               (strContainsCI a.title t || strContainsCI a.summary t))))) = true := by
  rw [List.all_eq_true]
  intro a ha
  have ha' : a ∈ db.filter fun a => matchesSource source a && matchesSearch search a :=
    mem_sortByScrapedDesc.mp (List.mem_of_mem_take ha)
  rw [List.mem_filter, Bool.and_eq_true] at ha'
  obtain ⟨-, hsrc, hsea⟩ := ha'
  rw [Bool.and_eq_true]
  constructor
  · cases source with
    | none => rfl
    | some s =>
        simp only [matchesSource] at hsrc
        by_cases hs : s = ""
        · simp [hs]
        · rw [if_neg hs] at hsrc
          simp [hsrc]
  · cases search with
    | none => rfl
    | some t =>
        simp only [matchesSearch] at hsea
        by_cases ht : t = ""
        · simp [ht]
        · rw [if_neg ht] at hsea
          have htb : (t == "") = false := by simpa using ht
          simp only [htb, Bool.false_or, Bool.and_eq_true]
          refine ⟨hsea, ?_⟩
          cases hhw : hasWildcard t with
          | true => simp
          | false =>
              simp only [Bool.false_or, Bool.or_eq_true]
              rw [Bool.or_eq_true] at hsea
              rcases hsea with h | h
              · exact Or.inl (like_imp_containsCI a.title t hhw h)
              · exact Or.inr (like_imp_containsCI a.summary t hhw h)

/-- Claim C6: when the by-source query finds zero matching rows, the
handler fails with a 404 error whose detail names the requested source and
never returns an empty success list; when at least one row matches, it
succeeds with a non-empty list. -/
theorem by_source_404_on_empty (w : World) (s : CacheState) (name : String)
    (limit : Int) (db : DB)
    (hdb : (get_db w s).1 = Except.ok db)
    (hvalid : validLimit 1 500 limit = true) :
    ((db.filter fun a => a.source == name) = [] →
      (get_articles_by_source .GET name limit w s).1 =
        .err ⟨404, "No articles found for source: " ++ name⟩ ∧
      strContains ("No articles found for source: " ++ name) name = true) ∧
    ((db.filter fun a => a.source == name) ≠ [] →
      ∃ b, (get_articles_by_source .GET name limit w s).1 = .ok b ∧
        b.articles ≠ []) := by
  obtain ⟨h1, h2⟩ : (1 : Int) ≤ limit ∧ limit ≤ 500 := by
    simpa [validLimit] using hvalid
  constructor
  · intro hfilter
    have hres : bySourceQuery db name limit.toNat = [] := by
      simp [bySourceQuery, hfilter, sortByScrapedDesc]
    refine ⟨?_, strContains_append_right _ _⟩
    simp [get_articles_by_source, hvalid, hdb, hres]
  · intro hfilter
    have hne : bySourceQuery db name limit.toNat ≠ [] := by
      intro h0
      have hlen : (bySourceQuery db name limit.toNat).length =
          min limit.toNat (db.filter fun a => a.source == name).length := by
        simp [bySourceQuery, length_sortByScrapedDesc]
      rw [h0] at hlen
      have hfl : 0 < (db.filter fun a => a.source == name).length :=
        List.length_pos.mpr hfilter
      simp at hlen
      omega
    refine ⟨⟨name, (bySourceQuery db name limit.toNat).length,
             bySourceQuery db name limit.toNat⟩, ?_, hne⟩
    simp [get_articles_by_source, hvalid, hdb, List.isEmpty_iff, hne]

theorem by_source_404_on_empty_witness :
    (get_articles_by_source .GET "bbc" 50 ⟨10000, some []⟩ ⟨none, 0⟩).1 =
      .err ⟨404, "No articles found for source: " ++ "bbc"⟩ ∧
    strContains ("No articles found for source: " ++ "bbc") "bbc" = true :=
  (by_source_404_on_empty ⟨10000, some []⟩ ⟨none, 0⟩ "bbc" 50 [] rfl rfl).1 rfl

/-- Claim C7: an out-of-range `limit` is rejected with the framework's
client-error (422) response before any database access (no download, no
statement, no handle, cache state untouched); each endpoint enforces its
declared range through the same validation check. -/
theorem limit_rejected_before_db (method : Method) (limit : Int)
    (source search : Option String) (name : String)
    (w : World) (s : CacheState) :
    (validLimit 1 1000 limit = false →
      get_articles method limit source search w s =
        (.err validationError, s, noEffects)) ∧
    (validLimit 1 100 limit = false →
      get_latest_articles method limit w s = (.err validationError, s, noEffects)) ∧
    (validLimit 1 500 limit = false →
      get_articles_by_source method name limit w s =
        (.err validationError, s, noEffects)) := by
  refine ⟨fun h => ?_, fun h => ?_, fun h => ?_⟩
  · simp [get_articles, h]
  · simp [get_latest_articles, h]
  · simp [get_articles_by_source, h]

theorem limit_rejected_before_db_witness :
    get_articles .GET 1001 none none ⟨0, none⟩ ⟨none, 0⟩ =
      (.err validationError, ⟨none, 0⟩, noEffects) ∧
    get_latest_articles .GET 101 ⟨0, none⟩ ⟨none, 0⟩ =
      (.err validationError, ⟨none, 0⟩, noEffects) ∧
    get_articles_by_source .GET "bbc" 0 ⟨0, none⟩ ⟨none, 0⟩ =
      (.err validationError, ⟨none, 0⟩, noEffects) :=
  ⟨(limit_rejected_before_db .GET 1001 none none "bbc" ⟨0, none⟩ ⟨none, 0⟩).1 rfl,
   (limit_rejected_before_db .GET 101 none none "bbc" ⟨0, none⟩ ⟨none, 0⟩).2.1 rfl,
   (limit_rejected_before_db .GET 0 none none "bbc" ⟨0, none⟩ ⟨none, 0⟩).2.2 rfl⟩

/-! ### Claims about handle/statement discipline and HEAD handling -/

/-- The (handles opened, statements executed, handles closed) part of an
effects ledger. -/
def effTriple (e : Effects) : Nat × Nat × Nat :=
  (e.handlesOpened, e.statements, e.handlesClosed)

theorem get_db_effects_of_ok (w : World) (s : CacheState) (db : DB)
    (hdb : (get_db w s).1 = Except.ok db) :
    (get_db w s).2.2.handlesOpened = 1 ∧ (get_db w s).2.2.statements = 0 ∧
    (get_db w s).2.2.handlesClosed = 0 := by
  by_cases hc : s.file.isSome ∧ w.now - s.last_fetch_time < CACHE_DURATION
  · simp [get_db, hc]
  · rcases hw : w.remote with _ | rdb
    · rcases hf : s.file with _ | fdb
      · exfalso
        simp [get_db, hc, hw, hf] at hdb
      · by_cases hlt : w.now - s.last_fetch_time < CACHE_DURATION <;>
          simp [get_db, hw, hf, hlt]
    · simp [get_db, hc, hw]

/-- Claim C8 counterexample: the stats operation executes four SQL
statements on its connection (COUNT, GROUP BY, MAX, MIN), not exactly
one. -/
theorem stats_executes_four_statements :
    (get_stats .GET ⟨10000, some []⟩ ⟨none, 0⟩).2.2.statements = 4 ∧
    ¬ (get_stats .GET ⟨10000, some []⟩ ⟨none, 0⟩).2.2.statements = 1 := by
  constructor
  · rfl
  · decide

/-- Claim C8 (amended): every Query Service operation opens exactly one
handle via the Snapshot Cache and closes it before returning; list,
latest, sources and by-source execute exactly one read statement, while
stats executes four. -/
theorem query_service_handle_discipline (w : World) (s : CacheState) (db : DB)
    (hdb : (get_db w s).1 = Except.ok db) :
    (∀ limit source search, validLimit 1 1000 limit = true →
      effTriple (get_articles .GET limit source search w s).2.2 = (1, 1, 1)) ∧
    (∀ limit, validLimit 1 100 limit = true →
      effTriple (get_latest_articles .GET limit w s).2.2 = (1, 1, 1)) ∧
    effTriple (get_sources .GET w s).2.2 = (1, 1, 1) ∧
    effTriple (get_stats .GET w s).2.2 = (1, 4, 1) ∧
    (∀ name limit, validLimit 1 500 limit = true →
      effTriple (get_articles_by_source .GET name limit w s).2.2 = (1, 1, 1)) := by
  obtain ⟨ho, hst, hcl⟩ := get_db_effects_of_ok w s db hdb
  refine ⟨fun limit source search hval => ?_, fun limit hval => ?_, ?_, ?_,
          fun name limit hval => ?_⟩
  · simp [get_articles, hval, hdb, effTriple, addQuery, ho, hst, hcl]
  · simp [get_latest_articles, hval, hdb, effTriple, addQuery, ho, hst, hcl]
  · simp [get_sources, hdb, effTriple, addQuery, ho, hst, hcl]
  · simp [get_stats, hdb, effTriple, addQuery, ho, hst, hcl]
  · simp only [get_articles_by_source, hval, if_true, hdb]
    split <;> simp [effTriple, addQuery, ho, hst, hcl]

theorem query_service_handle_discipline_witness :
    effTriple (get_articles .GET 50 none none ⟨10000, some []⟩ ⟨none, 0⟩).2.2 =
      (1, 1, 1) ∧
    effTriple (get_stats .GET ⟨10000, some []⟩ ⟨none, 0⟩).2.2 = (1, 4, 1) :=
  ⟨(query_service_handle_discipline ⟨10000, some []⟩ ⟨none, 0⟩ [] rfl).1
      50 none none rfl,
   (query_service_handle_discipline ⟨10000, some []⟩ ⟨none, 0⟩ [] rfl).2.2.2.1⟩

/-- Claim C9 counterexample: for a source with zero matching rows, GET on
`/articles/by-source/{source_name}` yields status 404 while HEAD on the
same route and input yields status 200 — HEAD does not mirror GET's
status. -/
theorem head_status_differs_from_get :
    ((get_articles_by_source .GET "bbc" 50 ⟨10000, some []⟩ ⟨none, 0⟩).1).status
      = 404 ∧
    ((get_articles_by_source .HEAD "bbc" 50 ⟨10000, some []⟩ ⟨none, 0⟩).1).status
      = 200 := by
  constructor
  · simp [get_articles_by_source, validLimit, get_db, bySourceQuery,
      sortByScrapedDesc, EndpointResult.status]
  · rfl

/-- Claim C9 (amended): every listed endpoint accepts HEAD on the same
route as GET and returns only headers with no body; once parameter
validation passes the HEAD status is always 200, regardless of the status
the corresponding GET would produce (it does not reproduce GET's
404/500). -/
theorem head_accepted_bodyless (w : World) (s : CacheState)
    (la ll lb : Int) (source search : Option String) (name : String)
    (h1000 : validLimit 1 1000 la = true) (h100 : validLimit 1 100 ll = true)
    (h500 : validLimit 1 500 lb = true) :
    (get_articles .HEAD la source search w s).1 = .head ∧
    (get_latest_articles .HEAD ll w s).1 = .head ∧
    (get_articles_by_source .HEAD name lb w s).1 = .head ∧
    (get_sources .HEAD w s).1 = .head ∧
    (get_stats .HEAD w s).1 = .head ∧
    (health_check .HEAD s).1 = .head ∧
    (root .HEAD s).1 = .head ∧
    (EndpointResult.head : EndpointResult ArticlesBody).hasBody = false ∧
    (EndpointResult.head : EndpointResult ArticlesBody).status = 200 := by
  refine ⟨?_, ?_, ?_, rfl, rfl, rfl, rfl, rfl, rfl⟩
  · simp [get_articles, h1000]
  · simp [get_latest_articles, h100]
  · simp [get_articles_by_source, h500]

theorem head_accepted_bodyless_witness :
    (get_articles .HEAD 50 none none ⟨0, none⟩ ⟨none, 0⟩).1 = .head ∧
    (get_latest_articles .HEAD 10 ⟨0, none⟩ ⟨none, 0⟩).1 = .head ∧
    (get_articles_by_source .HEAD "bbc" 50 ⟨0, none⟩ ⟨none, 0⟩).1 = .head ∧
    (get_sources .HEAD ⟨0, none⟩ ⟨none, 0⟩).1 = .head ∧
    (get_stats .HEAD ⟨0, none⟩ ⟨none, 0⟩).1 = .head ∧
    (health_check .HEAD ⟨none, 0⟩).1 = .head ∧
    (root .HEAD ⟨none, 0⟩).1 = .head ∧
    (EndpointResult.head : EndpointResult ArticlesBody).hasBody = false ∧
    (EndpointResult.head : EndpointResult ArticlesBody).status = 200 :=
  head_accepted_bodyless ⟨0, none⟩ ⟨none, 0⟩ 50 10 50 none none "bbc"
    rfl rfl rfl

/-- Claim C10: a HEAD request (on any endpoint, any cache state, any
upstream reachability) returns before `get_db` runs: the cache state is
unchanged and no download, file write, SQL statement or connection
open/close happens. -/
theorem head_no_side_effects (w : World) (s : CacheState)
    (la ll lb : Int) (source search : Option String) (name : String) :
    (get_articles .HEAD la source search w s).2 = (s, noEffects) ∧
    (get_latest_articles .HEAD ll w s).2 = (s, noEffects) ∧
    (get_articles_by_source .HEAD name lb w s).2 = (s, noEffects) ∧
    (get_sources .HEAD w s).2 = (s, noEffects) ∧
    (get_stats .HEAD w s).2 = (s, noEffects) ∧
    (health_check .HEAD s).2 = (s, noEffects) ∧
    (root .HEAD s).2 = (s, noEffects) := by
  refine ⟨?_, ?_, ?_, rfl, rfl, rfl, rfl⟩
  · unfold get_articles
    split <;> rfl
  · unfold get_latest_articles
    split <;> rfl
  · unfold get_articles_by_source
    split <;> rfl
